import Mathlib

/-!
Shallow embedding of `src/AssignmentCode.py`, a toy cab-booking program built
from three design patterns: a singleton configuration (`AppConfig`), strategy
variants for pricing (`NormalPricing`, `SurgePricing`) and payment (`UPIPayment`,
`CardPayment`, `WalletPayment`), and a `CabBookingSystem` orchestrator whose
`book_ride` method is wrapped by an authentication decorator (outermost) and a
logging decorator (inside it).

Modelling choices:
* Python floats are embedded as rationals (`ℚ`); the arithmetic in the source
  is a single multiplication per fare.
* Side effects (every `print` in the source) are embedded as an explicit list
  of `Event` values emitted in program order.
* The singleton `AppConfig.__new__` is embedded as a state transformer on the
  `_instance` slot (`Option AppConfig`).
* Methods that mutate `self` are embedded as state transformers on
  `CabBookingSystem`; `book_ride` contains no assignment to `self` in the
  source, so its embedded post-state is its input state, returned explicitly
  so that frame properties can be stated.
-/

namespace CabBook

/-- Configuration record: the two instance fields `AppConfig.__new__` sets. -/
structure AppConfig where
  app_name : String
  currency_symbol : String
deriving DecidableEq

/-- The field values assigned on first instantiation of `AppConfig`
(`app_name = "MiniCab"`, `currency_symbol = "₹"`). -/
def AppConfig.freshInstance : AppConfig :=
  { app_name := "MiniCab", currency_symbol := "₹" }

/-- `AppConfig.__new__`: given the current `_instance` class slot (`none` when
no instance has been created yet), return the instance handed to the caller
together with the updated slot. -/
def AppConfig.new : Option AppConfig → AppConfig × Option AppConfig
  | none => (AppConfig.freshInstance, some AppConfig.freshInstance)
  | some c => (c, some c)

/-- The list of values returned by `n` successive calls `AppConfig()`,
threading the `_instance` slot from the given initial state. -/
def configAccesses : Nat → Option AppConfig → List AppConfig
  | 0, _ => []
  | Nat.succ n, slot =>
      let r := AppConfig.new slot
      r.1 :: configAccesses n r.2

/-- The two concrete pricing strategies (`NormalPricing`, `SurgePricing`). -/
inductive PricingStrategy where
  | normal
  | surge
deriving DecidableEq

/-- `calculate_fare`: `NormalPricing` returns `distance_km * 10`,
`SurgePricing` returns `distance_km * 25`. -/
def calculate_fare : PricingStrategy → ℚ → ℚ
  | PricingStrategy.normal, distance_km => distance_km * 10
  | PricingStrategy.surge, distance_km => distance_km * 25

/-- The three concrete payment methods (`UPIPayment`, `CardPayment`,
`WalletPayment`). -/
inductive PaymentMethod where
  | upi
  | card
  | wallet
deriving DecidableEq

/-- One observable console message of the program, in program order. Each
constructor corresponds to one `print` in the source. -/
inductive Event where
  | authUser (name : String)
  | authFailed
  | authSuccess
  | logStart
  | logEnd (success : Bool)
  | errorSetPolicies
  | rideNotice (pickup destination : String) (distance_km : ℚ)
  | fareNotice (symbol : String) (fare : ℚ)
  | paymentNotice (method : PaymentMethod) (symbol : String) (amount : ℚ)
deriving DecidableEq

/-- `process_payment` of the active payment method: prints a success notice
with the configured currency symbol and returns `True` in every variant. -/
def process_payment (method : PaymentMethod) (symbol : String) (amount : ℚ) :
    Bool × List Event :=
  (true, [Event.paymentNotice method symbol amount])

/-- The dictionary `{"pickup": ..., "destination": ..., "fare": ...}` that a
successful `book_ride` returns. -/
structure BookingResult where
  pickup : String
  destination : String
  fare : ℚ
deriving DecidableEq

/-- The instance state of `CabBookingSystem`. -/
structure CabBookingSystem where
  user_name : String
  is_authenticated : Bool
  pricing_strategy : Option PricingStrategy
  payment_method : Option PaymentMethod
  config : AppConfig
deriving DecidableEq

/-- `CabBookingSystem.__init__`: both policies start unset; `self.config` is
the shared `AppConfig()` instance. -/
def CabBookingSystem.init (user_name : String) (is_authenticated : Bool) :
    CabBookingSystem :=
  { user_name := user_name
    is_authenticated := is_authenticated
    pricing_strategy := none
    payment_method := none
    config := AppConfig.freshInstance }

/-- `set_pricing`: `self.pricing_strategy = strategy`. -/
def set_pricing (s : CabBookingSystem) (strategy : PricingStrategy) :
    CabBookingSystem :=
  { s with pricing_strategy := some strategy }

/-- `set_payment`: `self.payment_method = method`. -/
def set_payment (s : CabBookingSystem) (method : PaymentMethod) :
    CabBookingSystem :=
  { s with payment_method := some method }

/-- The undecorated body of `book_ride`: the missing-policy check, fare
computation, trip/fare notices, payment processing, and result construction. -/
def book_ride_body (s : CabBookingSystem) (pickup destination : String)
    (distance_km : ℚ) : Option BookingResult × List Event :=
  match s.pricing_strategy, s.payment_method with
  | some strat, some method =>
      let fare := calculate_fare strat distance_km
      let pp := process_payment method s.config.currency_symbol fare
      let notices := [Event.rideNotice pickup destination distance_km,
                      Event.fareNotice s.config.currency_symbol fare]
      if pp.1 then
        (some { pickup := pickup, destination := destination, fare := fare },
         notices ++ pp.2)
      else
        (none, notices ++ pp.2)
  | _, _ => (none, [Event.errorSetPolicies])

/-- `book_ride_body` wrapped by the `log_operation` decorator: a timestamped
"Booking started" notice before the body, then "Booking Success" or
"Booking Failed" depending on the truthiness of the body's result. -/
def book_ride_logged (s : CabBookingSystem) (pickup destination : String)
    (distance_km : ℚ) : Option BookingResult × List Event :=
  let inner := book_ride_body s pickup destination distance_km
  (inner.1, Event.logStart :: (inner.2 ++ [Event.logEnd inner.1.isSome]))

/-- `book_ride` as callers see it: the logged body wrapped by the
`authenticate` decorator (applied outermost). The third component is the
orchestrator state after the call; the source method never assigns to `self`,
so it is the input state. -/
def book_ride (s : CabBookingSystem) (pickup destination : String)
    (distance_km : ℚ) :
    Option BookingResult × List Event × CabBookingSystem :=
  if s.is_authenticated then
    let inner := book_ride_logged s pickup destination distance_km
    (inner.1, Event.authUser s.user_name :: Event.authSuccess :: inner.2, s)
  else
    (none, [Event.authUser s.user_name, Event.authFailed], s)

/-- Shared reduction: with an authenticated session and both policies set,
`book_ride` returns the success dictionary and the full event trace, and
leaves the orchestrator state unchanged. -/
theorem book_ride_reduce (s : CabBookingSystem) (pickup destination : String)
    (d : ℚ) (strat : PricingStrategy) (method : PaymentMethod)
    (hauth : s.is_authenticated = true)
    (hp : s.pricing_strategy = some strat)
    (hm : s.payment_method = some method) :
    book_ride s pickup destination d =
      (some { pickup := pickup, destination := destination,
              fare := calculate_fare strat d },
       [Event.authUser s.user_name, Event.authSuccess, Event.logStart,
        Event.rideNotice pickup destination d,
        Event.fareNotice s.config.currency_symbol (calculate_fare strat d),
        Event.paymentNotice method s.config.currency_symbol
          (calculate_fare strat d),
        Event.logEnd true],
       s) := by
  simp [book_ride, book_ride_logged, book_ride_body, process_payment,
    hauth, hp, hm]

/-- C1: with an authenticated session and both a pricing and a payment policy
set, `book_ride` returns a non-null result whose fields are exactly the pickup,
the destination, and the fare computed by the active pricing policy on the
given distance. -/
theorem book_ride_success_result (s : CabBookingSystem)
    (pickup destination : String) (d : ℚ)
    (strat : PricingStrategy) (method : PaymentMethod)
    (hauth : s.is_authenticated = true)
    (hp : s.pricing_strategy = some strat)
    (hm : s.payment_method = some method) :
    (book_ride s pickup destination d).1 =
      some { pickup := pickup, destination := destination,
             fare := calculate_fare strat d } := by
  rw [book_ride_reduce s pickup destination d strat method hauth hp hm]

/-- Witness for C1: the concrete orchestrator for user "John" with Normal
pricing and UPI payment, booking a 3 km ride. -/
theorem book_ride_success_result_witness :
    (book_ride
        (set_payment (set_pricing (CabBookingSystem.init "John" true)
          PricingStrategy.normal) PaymentMethod.upi)
        "MG Road" "Koramangala" 3).1 =
      some { pickup := "MG Road", destination := "Koramangala",
             fare := calculate_fare PricingStrategy.normal 3 } :=
  book_ride_success_result _ "MG Road" "Koramangala" 3
    PricingStrategy.normal PaymentMethod.upi rfl rfl rfl

/-- C3: for every non-negative distance `d`, Normal pricing yields exactly
`10 * d`, Surge pricing yields exactly `25 * d`, and every variant's fare is
non-negative. -/
theorem calculate_fare_exact (d : ℚ) (hd : 0 ≤ d) :
    calculate_fare PricingStrategy.normal d = 10 * d ∧
    calculate_fare PricingStrategy.surge d = 25 * d ∧
    (∀ p : PricingStrategy, 0 ≤ calculate_fare p d) := by
  refine ⟨by simp [calculate_fare, mul_comm], by simp [calculate_fare, mul_comm], ?_⟩
  intro p
  cases p <;> simp [calculate_fare] <;> positivity

/-- Witness for C3 at distance 3. -/
theorem calculate_fare_exact_witness :
    calculate_fare PricingStrategy.normal 3 = 10 * 3 ∧
    calculate_fare PricingStrategy.surge 3 = 25 * 3 ∧
    (∀ p : PricingStrategy, 0 ≤ calculate_fare p 3) :=
  calculate_fare_exact 3 (by norm_num)

/-- C5: every payment variant's `process_payment` returns `True` on every
amount; no failure value is ever produced. -/
theorem process_payment_always_succeeds (method : PaymentMethod)
    (symbol : String) (amount : ℚ) :
    (process_payment method symbol amount).1 = true := rfl

/-- C7: whenever both policies are set (so that a fare is computed and one of
the current payment variants processes it), the post-payment failure branch of
`book_ride` is unreachable: the result is always the success leaf. -/
theorem payment_failure_branch_unreachable (s : CabBookingSystem)
    (pickup destination : String) (d : ℚ)
    (strat : PricingStrategy) (method : PaymentMethod)
    (hp : s.pricing_strategy = some strat)
    (hm : s.payment_method = some method) :
    (book_ride_body s pickup destination d).1.isSome = true := by
  simp [book_ride_body, process_payment, hp, hm]

/-- Witness for C7: Surge pricing, Wallet payment, a 7 km ride. -/
theorem payment_failure_branch_unreachable_witness :
    (book_ride_body
        (set_payment (set_pricing (CabBookingSystem.init "John" true)
          PricingStrategy.surge) PaymentMethod.wallet)
        "Indiranagar" "HSR Layout" 7).1.isSome = true :=
  payment_failure_branch_unreachable _ "Indiranagar" "HSR Layout" 7
    PricingStrategy.surge PaymentMethod.wallet rfl rfl

/-- C2: with an unauthenticated session, `book_ride` returns null whatever the
policy configuration, and the inner operation never runs: no "booking started"
log notice, no fare notice, and no payment notice appears in the trace. -/
theorem book_ride_unauthenticated (s : CabBookingSystem)
    (pickup destination : String) (d : ℚ)
    (hauth : s.is_authenticated = false) :
    (book_ride s pickup destination d).1 = none ∧
    Event.logStart ∉ (book_ride s pickup destination d).2.1 ∧
    (∀ symbol fare,
      Event.fareNotice symbol fare ∉ (book_ride s pickup destination d).2.1) ∧
    (∀ method symbol amount,
      Event.paymentNotice method symbol amount ∉
        (book_ride s pickup destination d).2.1) := by
  simp [book_ride, hauth]

/-- Witness for C2: unauthenticated user "Jane" with Normal pricing and UPI
payment configured, attempting a 6 km ride. -/
theorem book_ride_unauthenticated_witness :
    (book_ride
        (set_payment (set_pricing (CabBookingSystem.init "Jane" false)
          PricingStrategy.normal) PaymentMethod.upi)
        "Jayanagar" "BTM" 6).1 = none ∧
    Event.logStart ∉
      (book_ride
        (set_payment (set_pricing (CabBookingSystem.init "Jane" false)
          PricingStrategy.normal) PaymentMethod.upi)
        "Jayanagar" "BTM" 6).2.1 ∧
    (∀ symbol fare, Event.fareNotice symbol fare ∉
      (book_ride
        (set_payment (set_pricing (CabBookingSystem.init "Jane" false)
          PricingStrategy.normal) PaymentMethod.upi)
        "Jayanagar" "BTM" 6).2.1) ∧
    (∀ method symbol amount, Event.paymentNotice method symbol amount ∉
      (book_ride
        (set_payment (set_pricing (CabBookingSystem.init "Jane" false)
          PricingStrategy.normal) PaymentMethod.upi)
        "Jayanagar" "BTM" 6).2.1) :=
  book_ride_unauthenticated _ "Jayanagar" "BTM" 6 rfl

/-- C4: with an authenticated session but a missing pricing or payment policy,
`book_ride` returns null, no payment notice is emitted, and the attempt is
still logged: the trace contains the "booking started" notice and the
"Booking Failed" notice. -/
theorem book_ride_missing_policy (s : CabBookingSystem)
    (pickup destination : String) (d : ℚ)
    (hauth : s.is_authenticated = true)
    (hmiss : s.pricing_strategy = none ∨ s.payment_method = none) :
    (book_ride s pickup destination d).1 = none ∧
    (∀ method symbol amount,
      Event.paymentNotice method symbol amount ∉
        (book_ride s pickup destination d).2.1) ∧
    Event.logStart ∈ (book_ride s pickup destination d).2.1 ∧
    Event.logEnd false ∈ (book_ride s pickup destination d).2.1 := by
  rcases hmiss with hp | hm
  · cases hm2 : s.payment_method <;>
      simp [book_ride, book_ride_logged, book_ride_body, hauth, hp, hm2]
  · cases hp2 : s.pricing_strategy <;>
      simp [book_ride, book_ride_logged, book_ride_body, hauth, hm, hp2]

/-- Witness for C4: authenticated user "John" with neither policy set. -/
theorem book_ride_missing_policy_witness :
    (book_ride (CabBookingSystem.init "John" true) "MG Road" "Koramangala" 5).1
        = none ∧
    (∀ method symbol amount,
      Event.paymentNotice method symbol amount ∉
        (book_ride (CabBookingSystem.init "John" true)
          "MG Road" "Koramangala" 5).2.1) ∧
    Event.logStart ∈
      (book_ride (CabBookingSystem.init "John" true)
        "MG Road" "Koramangala" 5).2.1 ∧
    Event.logEnd false ∈
      (book_ride (CabBookingSystem.init "John" true)
        "MG Road" "Koramangala" 5).2.1 :=
  book_ride_missing_policy _ "MG Road" "Koramangala" 5 rfl (Or.inl rfl)

/-- Every run of accesses starting from an already-initialized slot returns
the fresh instance each time. -/
theorem configAccesses_some_fresh (n : Nat) :
    configAccesses n (some AppConfig.freshInstance) =
      List.replicate n AppConfig.freshInstance := by
  induction n with
  | zero => rfl
  | succ n ih => simp [configAccesses, AppConfig.new, List.replicate, ih]

/-- Every run of accesses from process start returns the fresh instance each
time. -/
theorem configAccesses_none (n : Nat) :
    configAccesses n none = List.replicate n AppConfig.freshInstance := by
  cases n with
  | zero => rfl
  | succ n =>
      simp [configAccesses, AppConfig.new, configAccesses_some_fresh,
        List.replicate]

/-- C6: across any number of `AppConfig()` accesses within one process, every
two returned values have identical fields (same application name and currency
symbol), and a further access after initialization leaves the stored instance
unchanged. -/
theorem appConfig_singleton (n : Nat) (c₁ c₂ : AppConfig)
    (h₁ : c₁ ∈ configAccesses n none) (h₂ : c₂ ∈ configAccesses n none) :
    c₁.app_name = c₂.app_name ∧ c₁.currency_symbol = c₂.currency_symbol ∧
    AppConfig.new (some c₁) = (c₁, some c₁) := by
  rw [configAccesses_none] at h₁ h₂
  have e₁ := List.eq_of_mem_replicate h₁
  have e₂ := List.eq_of_mem_replicate h₂
  subst e₁
  subst e₂
  exact ⟨rfl, rfl, rfl⟩

/-- Witness for C6: two accesses from process start both return the fresh
instance. -/
theorem appConfig_singleton_witness :
    AppConfig.freshInstance.app_name = AppConfig.freshInstance.app_name ∧
    AppConfig.freshInstance.currency_symbol =
      AppConfig.freshInstance.currency_symbol ∧
    AppConfig.new (some AppConfig.freshInstance) =
      (AppConfig.freshInstance, some AppConfig.freshInstance) :=
  appConfig_singleton 2 AppConfig.freshInstance AppConfig.freshInstance
    (by simp [configAccesses, AppConfig.new])
    (by simp [configAccesses, AppConfig.new])

/-- The orchestrator of the first demonstration scenario: authenticated user
"John", Normal pricing, UPI payment. -/
def johnSystem : CabBookingSystem :=
  set_payment (set_pricing (CabBookingSystem.init "John" true)
    PricingStrategy.normal) PaymentMethod.upi

/-- The same orchestrator after switching to Surge pricing and Card payment. -/
def johnSystemSwitched : CabBookingSystem :=
  set_payment (set_pricing johnSystem PricingStrategy.surge) PaymentMethod.card

/-- C8: end to end, the first scenario's 5 km booking yields the result
(MG Road, Koramangala, fare 50), and after replacing the policies with Surge
pricing and Card payment the next 15 km booking yields fare 375. -/
theorem end_to_end_scenarios :
    (book_ride johnSystem "MG Road" "Koramangala" 5).1 =
      some { pickup := "MG Road", destination := "Koramangala", fare := 50 } ∧
    (book_ride johnSystemSwitched "Airport" "Whitefield" 15).1 =
      some { pickup := "Airport", destination := "Whitefield", fare := 375 } := by
  constructor
  · rw [book_ride_reduce johnSystem "MG Road" "Koramangala" 5
      PricingStrategy.normal PaymentMethod.upi rfl rfl rfl]
    norm_num [calculate_fare]
  · rw [book_ride_reduce johnSystemSwitched "Airport" "Whitefield" 15
      PricingStrategy.surge PaymentMethod.card rfl rfl rfl]
    norm_num [calculate_fare]

/-- C9: `set_pricing` changes only the pricing-policy field, `set_payment`
changes only the payment-method field, and `book_ride` changes no field of the
orchestrator at all: its post-state equals its input state. -/
theorem setters_and_booking_frame (s : CabBookingSystem)
    (strat : PricingStrategy) (method : PaymentMethod)
    (pickup destination : String) (d : ℚ) :
    ((set_pricing s strat).user_name = s.user_name ∧
      (set_pricing s strat).is_authenticated = s.is_authenticated ∧
      (set_pricing s strat).payment_method = s.payment_method ∧
      (set_pricing s strat).config = s.config ∧
      (set_pricing s strat).pricing_strategy = some strat) ∧
    ((set_payment s method).user_name = s.user_name ∧
      (set_payment s method).is_authenticated = s.is_authenticated ∧
      (set_payment s method).pricing_strategy = s.pricing_strategy ∧
      (set_payment s method).config = s.config ∧
      (set_payment s method).payment_method = some method) ∧
    (book_ride s pickup destination d).2.2 = s := by
  refine ⟨⟨rfl, rfl, rfl, rfl, rfl⟩, ⟨rfl, rfl, rfl, rfl, rfl⟩, ?_⟩
  cases h : s.is_authenticated <;> simp [book_ride, h]

/-- C10: negative distances pass through unvalidated: on an authenticated
orchestrator with both policies set, a negative distance yields a non-null
result whose fare is the policy's rate times the distance, hence negative. -/
theorem negative_distance_passthrough (s : CabBookingSystem)
    (pickup destination : String) (d : ℚ)
    (strat : PricingStrategy) (method : PaymentMethod)
    (hauth : s.is_authenticated = true)
    (hp : s.pricing_strategy = some strat)
    (hm : s.payment_method = some method)
    (hd : d < 0) :
    (book_ride s pickup destination d).1 =
      some { pickup := pickup, destination := destination,
             fare := calculate_fare strat d } ∧
    calculate_fare PricingStrategy.normal d = 10 * d ∧
    calculate_fare PricingStrategy.surge d = 25 * d ∧
    calculate_fare strat d < 0 := by
  refine ⟨?_, by simp [calculate_fare, mul_comm], by simp [calculate_fare, mul_comm], ?_⟩
  · rw [book_ride_reduce s pickup destination d strat method hauth hp hm]
  · cases strat
    · exact mul_neg_of_neg_of_pos hd (by norm_num)
    · exact mul_neg_of_neg_of_pos hd (by norm_num)

/-- Witness for C10: Normal pricing, Card payment, distance -2. -/
theorem negative_distance_passthrough_witness :
    (book_ride
        (set_payment (set_pricing (CabBookingSystem.init "John" true)
          PricingStrategy.normal) PaymentMethod.card)
        "MG Road" "Koramangala" (-2)).1 =
      some { pickup := "MG Road", destination := "Koramangala",
             fare := calculate_fare PricingStrategy.normal (-2) } ∧
    calculate_fare PricingStrategy.normal (-2 : ℚ) = 10 * (-2) ∧
    calculate_fare PricingStrategy.surge (-2 : ℚ) = 25 * (-2) ∧
    calculate_fare PricingStrategy.normal (-2 : ℚ) < 0 :=
  negative_distance_passthrough _ "MG Road" "Koramangala" (-2)
    PricingStrategy.normal PaymentMethod.card rfl rfl rfl (by norm_num)

end CabBook
